import Mathlib

/-!
Shallow embedding of the frame-graph builder of
`Engine/Source/Runtime/RenderCore/Public/RenderGraphBuilder.h`
(class `FRDGBuilder`, pass type `FRenderGraphPass`, scope helper
`FStackRDGEventScopeRef`), together with the parts of the execution
pipeline (`Execute`, `WalkGraphDependencies`,
`ProcessDeferredInternalResourceQueries`, `ReleaseRHITextureIfPossible`)
whose bodies live in a translation unit that is not part of this tree and
are therefore modelled from the specification.

Modelling conventions:
  - `FMemStack` pointers become `Nat` identifiers handed out by a counter
    (`nextId`); pointer identity is identity of the `Nat`.
  - `TRefCountPtr<IPooledRenderTarget>` becomes the identity of the pooled
    render target; holding it in a container models holding a shared
    reference.
  - Unreal's `checkf(Cond, ...)` is a fatal assertion: when `Cond` is
    false the program halts.  We model a call whose `checkf` fires as
    `Except.error` (nothing after the failing call runs).
  - Unreal's `ensureMsgf(Cond, ...)` is a non-fatal assertion: when
    `Cond` is false it reports the condition and execution continues.
    We model a firing `ensureMsgf` by appending a diagnostic to the
    builder's `diags` log and continuing.
  - `RENDER_GRAPH_DEBUGGING` (i.e. `DO_CHECK`) is taken to be enabled, so
    every assertion and the debug `Resources` list are live.
  - `CurrentScope : const FRDGEventScope*` is the chain of scope names
    from innermost to outermost (`FRDGEventScope` is immutable and holds
    `ParentScope`, so the pointer chain is exactly a list; `[]` is
    `nullptr`, and `ParentScope` is the tail of the list).
-/

namespace RDG

/-- Texture targetable-flag bit granting shader-resource (SRV) capability
(`TexCreate_ShaderResource`); the concrete bit value is irrelevant, only
that it is a fixed distinct bit. -/
def TexCreate_ShaderResource : Nat := 1

/-- Texture targetable-flag bit granting UAV capability (`TexCreate_UAV`). -/
def TexCreate_UAV : Nat := 2

/-- The `ERenderGraphPassFlags::Compute` bit (value `1 << 0` in the source). -/
def ComputePassFlag : Nat := 1

/-- Test `(PassFlags & ERenderGraphPassFlags::Compute) == ERenderGraphPassFlags::Compute`,
the body of `FRenderGraphPass::IsCompute`. -/
def isComputeFlags (passFlags : Nat) : Bool :=
  Nat.land passFlags ComputePassFlag == ComputePassFlag

/-- Descriptor of a pooled render target (`FPooledRenderTargetDesc`);
only `TargetableFlags` matters for the verified claims. -/
structure FPooledRenderTargetDesc where
  targetableFlags : Nat
deriving DecidableEq, Repr

/-- A caller-owned physical pooled render target (`IPooledRenderTarget`),
identified by its object identity `id`. -/
structure IPooledRenderTarget where
  id : Nat
  desc : FPooledRenderTargetDesc
deriving DecidableEq, Repr

/-- Descriptor of a graph-tracked buffer (`FRDGBufferDesc`); it carries
usage/capability flags (the header under verification never reads them
when creating buffer views). -/
structure FRDGBufferDesc where
  usage : Nat
deriving DecidableEq, Repr

/-- A graph texture handle (`FRDGTexture*`): the `FMemStack` identity of
the object together with its immutable `Name` and `Desc` fields.  The
mutable `PooledRenderTarget` field lives in the builder state, keyed by
`id`. -/
structure FRDGTextureHandle where
  id : Nat
  name : String
  desc : FPooledRenderTargetDesc
deriving DecidableEq, Repr

/-- A graph buffer handle (`FRDGBuffer*`). -/
structure FRDGBufferHandle where
  id : Nat
  name : String
  desc : FRDGBufferDesc
deriving DecidableEq, Repr

/-- Descriptor for a texture SRV (`FRDGTextureSRVDesc`): references the
texture it views. -/
structure FRDGTextureSRVDesc where
  texture : FRDGTextureHandle
deriving DecidableEq, Repr

/-- Descriptor for a texture UAV (`FRDGTextureUAVDesc`). -/
structure FRDGTextureUAVDesc where
  texture : FRDGTextureHandle
deriving DecidableEq, Repr

/-- Descriptor for a buffer SRV (`FRDGBufferSRVDesc`). -/
structure FRDGBufferSRVDesc where
  buffer : FRDGBufferHandle
deriving DecidableEq, Repr

/-- Descriptor for a buffer UAV (`FRDGBufferUAVDesc`). -/
structure FRDGBufferUAVDesc where
  buffer : FRDGBufferHandle
deriving DecidableEq, Repr

/-- Handle of a created view (`FRDGTextureSRV*` / `FRDGTextureUAV*` /
`FRDGBufferSRV*` / `FRDGBufferUAV*`): its identity plus the identity of
the resource it references. -/
structure FRDGViewHandle where
  id : Nat
  resId : Nat
deriving DecidableEq, Repr

/-- Diagnostics reported by a firing (non-fatal) `ensureMsgf`. -/
inductive RDGDiag where
  /-- The `!bHasExecuted` ensure of `CreateTexture` / `CreateBuffer` /
  `CreateSRV` / `CreateUAV` fired for the named resource. -/
  | useAfterExecute (name : String)
  /-- The `NumRenderTargets() == 0` ensure of the `FRenderGraphPass`
  constructor fired for the named compute pass. -/
  | invalidComputePass (name : String)
  /-- The `TargetableFlags` capability ensure of texture `CreateSRV` /
  `CreateUAV` fired for the named texture. -/
  | capabilityMismatch (name : String)
deriving DecidableEq, Repr

/-- Fatal assertion outcomes (`checkf` / `check` firing halts the
program). -/
inductive RDGFatal where
  /-- The `checkf(!bHasExecuted, ...)` of `AddPass`,
  `QueueTextureExtraction` or the `FStackRDGEventScopeRef` constructor. -/
  | useAfterExecute
  /-- The `check(CurrentScope != nullptr)` of the scope destructor. -/
  | nullScopePop
deriving DecidableEq, Repr

/-- Record of one added pass (`FRenderGraphPass` as stored in
`FRDGBuilder::Passes`): name, the scope chain captured from
`CurrentScope`, the `NumRenderTargets()` count of its parameter layout,
its flags, and the identity of its execute lambda. -/
structure FRenderGraphPassRec where
  name : String
  parentScope : List String
  numRenderTargets : Nat
  passFlags : Nat
  callbackId : Nat
deriving DecidableEq, Repr

/-- Whether a stored pass is compute (`FRenderGraphPass::IsCompute`). -/
def FRenderGraphPassRec.isCompute (p : FRenderGraphPassRec) : Bool :=
  isComputeFlags p.passFlags

/-- One queued extraction (`FRDGBuilder::FDeferredInternalTextureQuery`):
the texture, the caller's output slot (`OutTexturePtr`), and
`bTransitionToRead`. -/
structure FDeferredInternalTextureQuery where
  texture : Nat
  outSlot : Nat
  bTransitionToRead : Bool
deriving DecidableEq, Repr

/-- The builder state (`class FRDGBuilder`).  `nextId` models the
`FMemStack` allocator handing out fresh object identities. -/
structure FRDGBuilder where
  nextId : Nat
  /-- `Passes`: ordered array of all passes added. -/
  passes : List FRenderGraphPassRec
  /-- `AllocatedTextures`: map texture identity to the pooled render
  target reference kept alive by the builder. -/
  allocatedTextures : List (Nat × Nat)
  /-- `FRDGTexture::PooledRenderTarget` per texture identity (mutable
  field of the heap-allocated texture objects). -/
  textureBindings : List (Nat × Nat)
  /-- Identities of textures that were registered as external (the data
  model's external flag; set only by `RegisterExternalTexture`). -/
  externalTextures : List Nat
  /-- `DeferredInternalTextureQueries`. -/
  deferredQueries : List FDeferredInternalTextureQuery
  /-- `CurrentScope` as the chain of scope names, innermost first
  (`[]` is `nullptr`; the parent of `n :: t` is `t`). -/
  currentScope : List String
  /-- `EventScopes`: debug list of every scope allocated. -/
  eventScopes : List String
  /-- `bHasExecuted`. -/
  bHasExecuted : Bool
  /-- Whether the optional immediate/debug execution mode is active
  (selected at construction; a development-only diagnostic mode). -/
  bImmediateMode : Bool
  /-- `Resources`: debug list of all created resource identities. -/
  resources : List Nat
  /-- Log of non-fatal `ensureMsgf` reports, in order. -/
  diags : List RDGDiag
  /-- Observable log of pass-callback invocations, in order. -/
  invoked : List Nat
deriving DecidableEq, Repr

/-- The builder constructor `FRDGBuilder(FRHICommandListImmediate&)`:
empty pass/resource state, `CurrentScope = nullptr`, `bHasExecuted =
false`.  The immediate/debug mode choice is a construction-time policy. -/
def FRDGBuilder.init (immediateMode : Bool) : FRDGBuilder :=
  { nextId := 0, passes := [], allocatedTextures := [], textureBindings := [],
    externalTextures := [], deferredQueries := [], currentScope := [],
    eventScopes := [], bHasExecuted := false, bImmediateMode := immediateMode,
    resources := [], diags := [], invoked := [] }

/-- Append a non-fatal diagnostic (a firing `ensureMsgf`). -/
def FRDGBuilder.addDiag (b : FRDGBuilder) (d : RDGDiag) : FRDGBuilder :=
  { b with diags := b.diags ++ [d] }

/-- First-match association lookup (pointer-keyed `TMap::Find`). -/
def lookupA (l : List (Nat × Nat)) (k : Nat) : Option Nat :=
  match l with
  | [] => none
  | (k', v) :: rest => if k' = k then some v else lookupA rest k

/-- Remove every entry with the given key (`TMap::Remove`). -/
def eraseKey (l : List (Nat × Nat)) (k : Nat) : List (Nat × Nat) :=
  l.filter (fun e => decide (e.1 ≠ k))

/-- Overwrite-or-insert a slot value (`*OutTexturePtr = Value`). -/
def setSlot (l : List (Nat × Nat)) (k v : Nat) : List (Nat × Nat) :=
  match l with
  | [] => [(k, v)]
  | (k', v') :: rest => if k' = k then (k, v) :: rest else (k', v') :: setSlot rest k v

/-- `FRDGBuilder::RegisterExternalTexture`.  The source:
`ensureMsgf(ExternalPooledTexture.IsValid(), ...)` (the argument here is a
value, hence always valid), then allocates the `FRDGTexture`, sets its
`PooledRenderTarget` to the external pooled texture, adds the shared
reference to `AllocatedTextures`, and records the texture in the debug
`Resources` list.  Note: the source performs no `bHasExecuted` check in
this function. -/
def FRDGBuilder.registerExternalTexture (b : FRDGBuilder)
    (externalPooledTexture : IPooledRenderTarget) (inName : String) :
    FRDGTextureHandle × FRDGBuilder :=
  let tex : FRDGTextureHandle :=
    { id := b.nextId, name := inName, desc := externalPooledTexture.desc }
  (tex,
   { b with
     nextId := b.nextId + 1,
     textureBindings := b.textureBindings ++ [(tex.id, externalPooledTexture.id)],
     allocatedTextures := b.allocatedTextures ++ [(tex.id, externalPooledTexture.id)],
     externalTextures := b.externalTextures ++ [tex.id],
     resources := b.resources ++ [tex.id] })

/-- `FRDGBuilder::CreateTexture`: `ensureMsgf(!bHasExecuted, ...)`
(non-fatal), then allocates the texture and records it in `Resources`. -/
def FRDGBuilder.createTexture (b : FRDGBuilder)
    (desc : FPooledRenderTargetDesc) (debugName : String) :
    FRDGTextureHandle × FRDGBuilder :=
  let b := if b.bHasExecuted then b.addDiag (RDGDiag.useAfterExecute debugName) else b
  let tex : FRDGTextureHandle := { id := b.nextId, name := debugName, desc := desc }
  (tex, { b with nextId := b.nextId + 1, resources := b.resources ++ [tex.id] })

/-- `FRDGBuilder::CreateBuffer`: `ensureMsgf(!bHasExecuted, ...)`
(non-fatal), then allocates the buffer and records it in `Resources`. -/
def FRDGBuilder.createBuffer (b : FRDGBuilder)
    (desc : FRDGBufferDesc) (debugName : String) :
    FRDGBufferHandle × FRDGBuilder :=
  let b := if b.bHasExecuted then b.addDiag (RDGDiag.useAfterExecute debugName) else b
  let buf : FRDGBufferHandle := { id := b.nextId, name := debugName, desc := desc }
  (buf, { b with nextId := b.nextId + 1, resources := b.resources ++ [buf.id] })

/-- `FRDGBuilder::CreateSRV(const FRDGTextureSRVDesc&)`:
`check(Desc.Texture)` (handles are values here, never null), then two
non-fatal ensures — `!bHasExecuted` and
`Desc.Texture->Desc.TargetableFlags & TexCreate_ShaderResource` — then
creates the SRV and records it in `Resources`. -/
def FRDGBuilder.createTextureSRV (b : FRDGBuilder) (desc : FRDGTextureSRVDesc) :
    FRDGViewHandle × FRDGBuilder :=
  let b := if b.bHasExecuted then b.addDiag (RDGDiag.useAfterExecute desc.texture.name) else b
  let b :=
    if Nat.land desc.texture.desc.targetableFlags TexCreate_ShaderResource == 0 then
      b.addDiag (RDGDiag.capabilityMismatch desc.texture.name)
    else b
  let v : FRDGViewHandle := { id := b.nextId, resId := desc.texture.id }
  (v, { b with nextId := b.nextId + 1, resources := b.resources ++ [v.id] })

/-- `FRDGBuilder::CreateSRV(const FRDGBufferSRVDesc&)`:
`check(Desc.Buffer)`, then only the non-fatal `!bHasExecuted` ensure —
the source performs no capability check on the buffer's descriptor —
then creates the SRV and records it in `Resources`. -/
def FRDGBuilder.createBufferSRV (b : FRDGBuilder) (desc : FRDGBufferSRVDesc) :
    FRDGViewHandle × FRDGBuilder :=
  let b := if b.bHasExecuted then b.addDiag (RDGDiag.useAfterExecute desc.buffer.name) else b
  let v : FRDGViewHandle := { id := b.nextId, resId := desc.buffer.id }
  (v, { b with nextId := b.nextId + 1, resources := b.resources ++ [v.id] })

/-- `FRDGBuilder::CreateUAV(const FRDGTextureUAVDesc&)`:
`check(Desc.Texture)`, then two non-fatal ensures — `!bHasExecuted` and
`Desc.Texture->Desc.TargetableFlags & TexCreate_UAV` — then creates the
UAV and records it in `Resources`. -/
def FRDGBuilder.createTextureUAV (b : FRDGBuilder) (desc : FRDGTextureUAVDesc) :
    FRDGViewHandle × FRDGBuilder :=
  let b := if b.bHasExecuted then b.addDiag (RDGDiag.useAfterExecute desc.texture.name) else b
  let b :=
    if Nat.land desc.texture.desc.targetableFlags TexCreate_UAV == 0 then
      b.addDiag (RDGDiag.capabilityMismatch desc.texture.name)
    else b
  let v : FRDGViewHandle := { id := b.nextId, resId := desc.texture.id }
  (v, { b with nextId := b.nextId + 1, resources := b.resources ++ [v.id] })

/-- `FRDGBuilder::CreateUAV(const FRDGBufferUAVDesc&)`:
`check(Desc.Buffer)`, then only the non-fatal `!bHasExecuted` ensure —
the source performs no capability check on the buffer's descriptor —
then creates the UAV and records it in `Resources`. -/
def FRDGBuilder.createBufferUAV (b : FRDGBuilder) (desc : FRDGBufferUAVDesc) :
    FRDGViewHandle × FRDGBuilder :=
  let b := if b.bHasExecuted then b.addDiag (RDGDiag.useAfterExecute desc.buffer.name) else b
  let v : FRDGViewHandle := { id := b.nextId, resId := desc.buffer.id }
  (v, { b with nextId := b.nextId + 1, resources := b.resources ++ [v.id] })

/-- `FRDGBuilder::AddPass`.  The source: fatal
`checkf(!bHasExecuted, ...)`; then the `FRenderGraphPass` constructor,
whose `ensureMsgf(ParameterStruct.Layout->NumRenderTargets() == 0, ...)`
under `IsCompute()` is non-fatal (the pass object is constructed
regardless); then `Passes.Emplace(NewPass)`; then `DebugPass(NewPass)`.
`DebugPass` is modelled from the spec: in the optional immediate/debug
mode it executes the pass synchronously instead of deferring; its
validation emits diagnostics only and does not remove the emplaced
pass. -/
def FRDGBuilder.addPass (b : FRDGBuilder) (inName : String)
    (numRenderTargets : Nat) (passFlags : Nat) (callbackId : Nat) :
    Except RDGFatal FRDGBuilder :=
  if b.bHasExecuted then Except.error RDGFatal.useAfterExecute else
  let b :=
    if isComputeFlags passFlags && numRenderTargets != 0 then
      b.addDiag (RDGDiag.invalidComputePass inName)
    else b
  let pass : FRenderGraphPassRec :=
    { name := inName, parentScope := b.currentScope,
      numRenderTargets := numRenderTargets, passFlags := passFlags,
      callbackId := callbackId }
  let b := { b with passes := b.passes ++ [pass] }
  let b := if b.bImmediateMode then { b with invoked := b.invoked ++ [callbackId] } else b
  Except.ok b

/-- `FRDGBuilder::QueueTextureExtraction`: `check(Texture)` and
`check(OutTexturePtr)` (values here), fatal `checkf(!bHasExecuted, ...)`,
then appends the query to `DeferredInternalTextureQueries`.  The caller's
output slot is not written by this call. -/
def FRDGBuilder.queueTextureExtraction (b : FRDGBuilder)
    (texture : FRDGTextureHandle) (outSlot : Nat) (bTransitionToRead : Bool) :
    Except RDGFatal FRDGBuilder :=
  if b.bHasExecuted then Except.error RDGFatal.useAfterExecute else
  Except.ok { b with deferredQueries :=
      b.deferredQueries ++
        [{ texture := texture.id, outSlot := outSlot,
           bTransitionToRead := bTransitionToRead }] }

/-- The `FStackRDGEventScopeRef` constructor: fatal
`checkf(!GraphBuilder.bHasExecuted, ...)`, allocate an `FRDGEventScope`
whose `ParentScope` is the current scope, record it in `EventScopes`, and
set `CurrentScope` to the new scope. -/
def FRDGBuilder.pushScope (b : FRDGBuilder) (inName : String) :
    Except RDGFatal FRDGBuilder :=
  if b.bHasExecuted then Except.error RDGFatal.useAfterExecute else
  Except.ok { b with
    eventScopes := b.eventScopes ++ [inName],
    currentScope := inName :: b.currentScope }

/-- The `FStackRDGEventScopeRef` destructor:
`check(GraphBuilder.CurrentScope != nullptr)` then
`CurrentScope = CurrentScope->ParentScope`. -/
def FRDGBuilder.popScope (b : FRDGBuilder) : Except RDGFatal FRDGBuilder :=
  match b.currentScope with
  | [] => Except.error RDGFatal.nullScopePop
  | _ :: parent => Except.ok { b with currentScope := parent }

/-- Modelled from the spec: `FRDGBuilder::ReleaseRHITextureIfPossible`
(its body is not in this tree).  Per the spec's allocator contract,
release is a no-op for externally registered resources; for a
graph-created texture it drops the builder's pooled reference (returning
the physical resource to the pool). -/
def FRDGBuilder.releaseTextureIfPossible (b : FRDGBuilder)
    (texture : FRDGTextureHandle) : FRDGBuilder :=
  if texture.id ∈ b.externalTextures then b
  else
    { b with
      allocatedTextures := eraseKey b.allocatedTextures texture.id,
      textureBindings := eraseKey b.textureBindings texture.id }

/-- The world seen by code outside the builder: the builder itself, the
caller-owned output slots that `QueueTextureExtraction` targets
(slot identity maps to the pooled-texture identity last written into it;
absence means the slot was never written), and the set of pooled textures
that have been transitioned to the readable state. -/
structure World where
  builder : FRDGBuilder
  slots : List (Nat × Nat)
  readable : List Nat
deriving DecidableEq, Repr

/-- Process one deferred query at teardown: copy the texture's final
pooled-render-target reference into the caller's slot and, when
`bTransitionToRead`, transition that pooled texture to the readable
state.  (The claims under verification extract externally registered
textures, whose binding was established at registration; a query on a
texture with no binding writes nothing.) -/
def processQuery (bindings : List (Nat × Nat)) (acc : List (Nat × Nat) × List Nat)
    (q : FDeferredInternalTextureQuery) : List (Nat × Nat) × List Nat :=
  match lookupA bindings q.texture with
  | some pooledId =>
      (setSlot acc.1 q.outSlot pooledId,
       if q.bTransitionToRead then acc.2 ++ [pooledId] else acc.2)
  | none => acc

/-- Modelled from the spec: `FRDGBuilder::Execute` (its body is not in
this tree).  Single linear scan invoking each queued pass's callback in
declaration order (in the immediate/debug mode the callbacks already ran
synchronously at `AddPass` time, so none are invoked here), then
`ProcessDeferredInternalResourceQueries` resolves every queued extraction
— in this order regardless of mode, per the source's own comment on
`QueueTextureExtraction` — and the one-shot `bHasExecuted` flag is set. -/
def World.execute (w : World) : World :=
  let b := w.builder
  let invoked2 :=
    if b.bImmediateMode then b.invoked
    else b.invoked ++ b.passes.map (fun p => p.callbackId)
  let out := b.deferredQueries.foldl (processQuery b.textureBindings) (w.slots, w.readable)
  { builder := { b with bHasExecuted := true, invoked := invoked2 },
    slots := out.1, readable := out.2 }

/-- A builder call observable from outside, for stating properties over
arbitrary interleavings of declarations and execution. -/
inductive RDGOp where
  | createTexture (desc : FPooledRenderTargetDesc) (debugName : String)
  | createBuffer (desc : FRDGBufferDesc) (debugName : String)
  | registerExternalTexture (pooled : IPooledRenderTarget) (inName : String)
  | createTextureSRV (desc : FRDGTextureSRVDesc)
  | createBufferSRV (desc : FRDGBufferSRVDesc)
  | createTextureUAV (desc : FRDGTextureUAVDesc)
  | createBufferUAV (desc : FRDGBufferUAVDesc)
  | addPass (inName : String) (numRenderTargets : Nat) (passFlags : Nat) (callbackId : Nat)
  | queueTextureExtraction (texture : FRDGTextureHandle) (outSlot : Nat) (bTransitionToRead : Bool)
  | releaseTextureIfPossible (texture : FRDGTextureHandle)
  | executeGraph
deriving DecidableEq, Repr

/-- Replace the builder inside a world. -/
def World.withBuilder (w : World) (b : FRDGBuilder) : World :=
  { w with builder := b }

/-- Interpret one builder call on the world.  A firing fatal `checkf` is
`Except.error`: the program halts there and nothing later runs. -/
def applyOp (o : RDGOp) (w : World) : Except RDGFatal World :=
  match o with
  | RDGOp.createTexture desc n => Except.ok (w.withBuilder (w.builder.createTexture desc n).2)
  | RDGOp.createBuffer desc n => Except.ok (w.withBuilder (w.builder.createBuffer desc n).2)
  | RDGOp.registerExternalTexture p n =>
      Except.ok (w.withBuilder (w.builder.registerExternalTexture p n).2)
  | RDGOp.createTextureSRV desc => Except.ok (w.withBuilder (w.builder.createTextureSRV desc).2)
  | RDGOp.createBufferSRV desc => Except.ok (w.withBuilder (w.builder.createBufferSRV desc).2)
  | RDGOp.createTextureUAV desc => Except.ok (w.withBuilder (w.builder.createTextureUAV desc).2)
  | RDGOp.createBufferUAV desc => Except.ok (w.withBuilder (w.builder.createBufferUAV desc).2)
  | RDGOp.addPass n nrt fl cb =>
      match w.builder.addPass n nrt fl cb with
      | Except.ok b => Except.ok (w.withBuilder b)
      | Except.error e => Except.error e
  | RDGOp.queueTextureExtraction t s r =>
      match w.builder.queueTextureExtraction t s r with
      | Except.ok b => Except.ok (w.withBuilder b)
      | Except.error e => Except.error e
  | RDGOp.releaseTextureIfPossible t =>
      Except.ok (w.withBuilder (w.builder.releaseTextureIfPossible t))
  | RDGOp.executeGraph => Except.ok w.execute

/-- Run a sequence of builder calls, halting at the first fatal
assertion. -/
def runOps : List RDGOp → World → Except RDGFatal World
  | [], w => Except.ok w
  | o :: rest, w =>
      match applyOp o w with
      | Except.ok w' => runOps rest w'
      | Except.error e => Except.error e

/-- A control-flow shape for builder code using `RDG_EVENT_SCOPE`:
ordinary builder calls, and lexical scope blocks.  A `scope` block is the
lifetime of one stack-allocated `FStackRDGEventScopeRef`: its constructor
runs on entry and — RAII — its destructor runs when the block is left. -/
inductive ScopeProg where
  | done
  | op (o : RDGOp) (rest : ScopeProg)
  | scope (inName : String) (inner : ScopeProg) (rest : ScopeProg)
deriving DecidableEq, Repr

/-- Run a scope-structured program: `scope` pushes on entry, runs the
block body, pops on exit, then continues. -/
def runScopeProg : ScopeProg → World → Except RDGFatal World
  | ScopeProg.done, w => Except.ok w
  | ScopeProg.op o rest, w =>
      match applyOp o w with
      | Except.ok w' => runScopeProg rest w'
      | Except.error e => Except.error e
  | ScopeProg.scope n inner rest, w =>
      match w.builder.pushScope n with
      | Except.error e => Except.error e
      | Except.ok b1 =>
        match runScopeProg inner (w.withBuilder b1) with
        | Except.error e => Except.error e
        | Except.ok w2 =>
          match w2.builder.popScope with
          | Except.error e => Except.error e
          | Except.ok b3 => runScopeProg rest (w2.withBuilder b3)

/-! Dependency walk and transition computation.  The bodies of
`FRDGBuilder::WalkGraphDependencies` / `TransitionTexture` are not in
this tree; the analysis below is modelled from the spec: a single linear
scan over the pass sequence that, for each consecutive pair of accesses
to the same resource, computes the required state transition from a small
lookup table keyed by (previous access mode, next access mode, resource
category). -/

/-- Access mode a pass declares on a resource. -/
inductive EAccessMode where
  | read
  | write
  | readWrite
deriving DecidableEq, Repr

/-- Resource category distinguishing the transition rules. -/
inductive EResourceCategory where
  | texture
  | buffer
deriving DecidableEq, Repr

/-- One entry of a pass's parameter table: which resource, its category,
and the declared access mode. -/
structure FAccessEntry where
  res : Nat
  cat : EResourceCategory
  mode : EAccessMode
deriving DecidableEq, Repr

/-- A state transition emitted for a resource: from the previous access
mode (`none` is the undefined initial state) to the next, for the given
category. -/
structure FResourceTransition where
  prevMode : Option EAccessMode
  nextMode : EAccessMode
  cat : EResourceCategory
deriving DecidableEq, Repr

/-- Modelled from the spec: the transition lookup table keyed by
(previous access mode, next access mode, resource category).  A first use
transitions from the undefined state; a repeated access in the same mode
needs no barrier; any mode change emits the corresponding transition. -/
def transitionLookup (prev : Option EAccessMode) (next : EAccessMode)
    (cat : EResourceCategory) : Option FResourceTransition :=
  match prev with
  | none => some { prevMode := none, nextMode := next, cat := cat }
  | some p =>
      if p = next then none
      else some { prevMode := some p, nextMode := next, cat := cat }

/-- Lookup of a resource's last recorded access mode in the walk state. -/
def lookupMode (st : List (Nat × EAccessMode)) (k : Nat) : Option EAccessMode :=
  match st with
  | [] => none
  | (k', v) :: rest => if k' = k then some v else lookupMode rest k

/-- Record a resource's newest access mode in the walk state. -/
def setAccessMode (st : List (Nat × EAccessMode)) (k : Nat) (m : EAccessMode) :
    List (Nat × EAccessMode) :=
  match st with
  | [] => [(k, m)]
  | (k', v) :: rest =>
      if k' = k then (k, m) :: rest else (k', v) :: setAccessMode rest k m

/-- Modelled from the spec: the single linear scan of
`WalkGraphDependencies` over the flattened sequence of parameter-table
entries, threading the per-resource last-access map and emitting, in
order, every (resource, transition) pair the execution engine will
apply. -/
def walkTransitions : List FAccessEntry → List (Nat × EAccessMode) →
    List (Nat × FResourceTransition)
  | [], _ => []
  | e :: rest, st =>
      (match transitionLookup (lookupMode st e.res) e.mode e.cat with
       | some t => [(e.res, t)]
       | none => []) ++ walkTransitions rest (setAccessMode st e.res e.mode)

/-- A graph, for the analyzer: the ordered pass sequence, each pass its
ordered parameter table. -/
def GraphAccesses : Type := List (List FAccessEntry)

/-- All parameter-table entries of a graph, in pass order. -/
def graphEntries (g : GraphAccesses) : List FAccessEntry := g.flatten

/-- The transitions a graph's dependency walk emits, in order. -/
def graphTransitions (g : GraphAccesses) : List (Nat × FResourceTransition) :=
  walkTransitions (graphEntries g) []

/-- The ordered (category, mode) sequence of all accesses to one resource
within an entry sequence. -/
def entriesHistory (entries : List FAccessEntry) (r : Nat) :
    List (EResourceCategory × EAccessMode) :=
  entries.filterMap fun e => if e.res = r then some (e.cat, e.mode) else none

/-- The access history of one resource in a graph: the ordered
(category, mode) sequence of all accesses to it. -/
def accessHistory (g : GraphAccesses) (r : Nat) :
    List (EResourceCategory × EAccessMode) :=
  entriesHistory (graphEntries g) r

/-- The transitions emitted for one resource by a walk of an entry
sequence. -/
def emittedForEntries (entries : List FAccessEntry)
    (st : List (Nat × EAccessMode)) (r : Nat) : List FResourceTransition :=
  (walkTransitions entries st).filterMap fun p => if p.1 = r then some p.2 else none

/-- The sequence of transitions the graph's walk emits for one
resource. -/
def emittedFor (g : GraphAccesses) (r : Nat) : List FResourceTransition :=
  emittedForEntries (graphEntries g) [] r

/-- Transitions determined by an access history alone, starting from the
given previous mode. -/
def pureTransitionSeq : Option EAccessMode →
    List (EResourceCategory × EAccessMode) → List FResourceTransition
  | _, [] => []
  | prev, (c, m) :: rest =>
      (match transitionLookup prev m c with
       | some t => [t]
       | none => []) ++ pureTransitionSeq (some m) rest

/-! Parameter-block allocation. -/

/-- `FMemory::Memzero(Ptr, Count)`: every byte of the block is set to
zero. -/
def FMemory.Memzero (block : List Nat) : List Nat :=
  block.map fun _ => 0

/-- `FRDGBuilder::AllocParameters<T>`: placement-new of a `T` on the
`FMemStack` (yielding `sizeof(T)` bytes of whatever the default
constructor left, here an arbitrary byte block), immediately followed by
`FMemory::Memzero` over the whole `sizeof(T)` block. -/
def allocParameters (ctorBytes : List Nat) : List Nat :=
  FMemory.Memzero ctorBytes

/-- A fresh world around a fresh builder. -/
def World.init (immediateMode : Bool) : World :=
  { builder := FRDGBuilder.init immediateMode, slots := [], readable := [] }

/-! Concrete fixtures used to evaluate the operations on closed inputs. -/

/-- Texture descriptor with no capability bits set. -/
def descNoCaps : FPooledRenderTargetDesc := { targetableFlags := 0 }

/-- Texture descriptor with both shader-resource and UAV bits set. -/
def descAllCaps : FPooledRenderTargetDesc :=
  { targetableFlags := Nat.lor TexCreate_ShaderResource TexCreate_UAV }

/-- Buffer descriptor with no capability bits set. -/
def bufDescNoCaps : FRDGBufferDesc := { usage := 0 }

/-- A concrete caller-owned pooled render target. -/
def pooledA : IPooledRenderTarget := { id := 100, desc := descAllCaps }

/-- A freshly executed (empty) graph: every declaration below happens
after `Execute()`. -/
def executedWorld : World := (World.init false).execute

/-- The builder of `executedWorld`, with `bHasExecuted = true`. -/
def executedBuilder : FRDGBuilder := executedWorld.builder

/-- A concrete buffer handle whose descriptor lacks every capability
flag. -/
def bufNoCaps : FRDGBufferHandle := { id := 7, name := "B", desc := bufDescNoCaps }

/-- A concrete texture handle whose descriptor lacks every capability
flag. -/
def texNoCaps : FRDGTextureHandle := { id := 8, name := "T", desc := descNoCaps }

/-- A concrete texture handle whose descriptor has every capability
flag. -/
def texAllCaps : FRDGTextureHandle := { id := 9, name := "TA", desc := descAllCaps }

/-- Two passes used as concrete execution-order inputs. -/
def passA : FRenderGraphPassRec :=
  { name := "A", parentScope := [], numRenderTargets := 1, passFlags := 0, callbackId := 11 }

/-- Second concrete pass. -/
def passB : FRenderGraphPassRec :=
  { name := "B", parentScope := [], numRenderTargets := 0, passFlags := ComputePassFlag,
    callbackId := 22 }

/-- A deferred-mode world already holding two declared passes. -/
def twoPassWorld : World :=
  { builder := { FRDGBuilder.init false with passes := [passA, passB] },
    slots := [], readable := [] }

/-- The builder obtained by queueing one extraction of `texNoCaps` into
slot 0 on a fresh builder. -/
def queuedBuilder : FRDGBuilder :=
  { FRDGBuilder.init false with
    deferredQueries := [{ texture := 8, outSlot := 0, bTransitionToRead := true }] }

/-- A concrete two-pass graph for the analyzer: resource 1 is written by
pass 1 then read by pass 2; resource 2 is read once by pass 1. -/
def graphOne : GraphAccesses :=
  [[{ res := 1, cat := EResourceCategory.texture, mode := EAccessMode.write },
    { res := 2, cat := EResourceCategory.buffer, mode := EAccessMode.read }],
   [{ res := 1, cat := EResourceCategory.texture, mode := EAccessMode.read }]]

/-- A different concrete graph in which resource 5 undergoes the same
access sequence as resource 1 of `graphOne`, among different other
resources and passes. -/
def graphTwo : GraphAccesses :=
  [[{ res := 5, cat := EResourceCategory.texture, mode := EAccessMode.write }],
   [{ res := 5, cat := EResourceCategory.texture, mode := EAccessMode.read },
    { res := 3, cat := EResourceCategory.buffer, mode := EAccessMode.readWrite }],
   [{ res := 3, cat := EResourceCategory.buffer, mode := EAccessMode.read }]]

/-- The builder after pushing one scope named Outer on a fresh
builder. -/
def pushedOuter : FRDGBuilder :=
  { FRDGBuilder.init false with eventScopes := ["Outer"], currentScope := ["Outer"] }

/-- The world after registering `pooledA` on a fresh builder and then
executing the graph. -/
def c9Final : World :=
  ((World.init false).withBuilder
    ((World.init false).builder.registerExternalTexture pooledA "E").2).execute

/-! Association-list lemmas for the maps used by the builder. -/

theorem lookupA_append_some {l : List (Nat × Nat)} {k v : Nat}
    (l2 : List (Nat × Nat)) (h : lookupA l k = some v) :
    lookupA (l ++ l2) k = some v := by
  induction l with
  | nil => simp [lookupA] at h
  | cons hd tl ih =>
      simp only [lookupA, List.cons_append] at h ⊢
      by_cases hk : hd.1 = k
      · simpa [hk] using h
      · simp only [hk, if_false] at h ⊢
        exact ih h

theorem lookupA_append_of_none {l : List (Nat × Nat)} {k : Nat}
    (l2 : List (Nat × Nat)) (h : lookupA l k = none) :
    lookupA (l ++ l2) k = lookupA l2 k := by
  induction l with
  | nil => simp
  | cons hd tl ih =>
      simp only [lookupA, List.cons_append] at h ⊢
      by_cases hk : hd.1 = k
      · simp [hk] at h
      · simp only [hk, if_false] at h ⊢
        exact ih h

theorem lookupA_eraseKey_ne {l : List (Nat × Nat)} {k' k : Nat} (h : k' ≠ k) :
    lookupA (eraseKey l k') k = lookupA l k := by
  induction l with
  | nil => rfl
  | cons hd tl ih =>
      obtain ⟨a, v⟩ := hd
      by_cases hk : a = k'
      · have ha : ¬a = k := fun hak => h (hk ▸ hak)
        have hdrop : eraseKey ((a, v) :: tl) k' = eraseKey tl k' := by
          simp [eraseKey, hk]
        rw [hdrop, ih, lookupA, if_neg ha]
      · have hkeep : eraseKey ((a, v) :: tl) k' = (a, v) :: eraseKey tl k' := by
          simp [eraseKey, hk]
        by_cases hke : a = k
        · rw [hkeep, lookupA, if_pos hke, lookupA, if_pos hke]
        · rw [hkeep, lookupA, if_neg hke, lookupA, if_neg hke, ih]

theorem mem_eraseKey {l : List (Nat × Nat)} {a b k : Nat}
    (hm : (a, b) ∈ l) (hne : a ≠ k) : (a, b) ∈ eraseKey l k := by
  simp only [eraseKey, List.mem_filter]
  exact ⟨hm, by simpa using hne⟩

theorem lookupA_setSlot_self (l : List (Nat × Nat)) (k v : Nat) :
    lookupA (setSlot l k v) k = some v := by
  induction l with
  | nil => simp [setSlot, lookupA]
  | cons hd tl ih =>
      by_cases hk : hd.1 = k
      · simp [setSlot, hk, lookupA]
      · simp [setSlot, hk, lookupA, ih]

/-! Claim C10. -/

/-- C10: every parameter block returned by `AllocParameters<T>` has its
entire `sizeof(T)` bytes zeroed before it is handed to the caller
(whatever the default constructor wrote), so any two calls for the same
`T` yield identical zero-initialized blocks. -/
theorem allocParameters_zero_initialized (bytes1 bytes2 : List Nat)
    (hlen : bytes1.length = bytes2.length) :
    allocParameters bytes1 = List.replicate bytes1.length 0 ∧
    allocParameters bytes1 = allocParameters bytes2 := by
  constructor
  · simp [allocParameters, FMemory.Memzero, List.map_const']
  · simp [allocParameters, FMemory.Memzero, List.map_const', hlen]

/-- Witness for C10 at two concrete three-byte constructor outputs. -/
theorem allocParameters_zero_initialized_witness :
    allocParameters [3, 1, 4] = List.replicate [3, 1, 4].length 0 ∧
    allocParameters [3, 1, 4] = allocParameters [9, 0, 7] :=
  allocParameters_zero_initialized [3, 1, 4] [9, 0, 7] (by decide)

/-! Claim C4. -/

/-- C4: in the deferred (non-immediate) mode, `Execute()` invokes the
execution callback of every added pass exactly once, in exactly the
declaration order: the invocation log grows by precisely the sequence of
pass callbacks in the order the passes sit in `Passes`. -/
theorem execute_invokes_in_declaration_order (w : World)
    (hm : w.builder.bImmediateMode = false) :
    (World.execute w).builder.invoked =
      w.builder.invoked ++ w.builder.passes.map (fun p => p.callbackId) := by
  simp [World.execute, hm]

/-- Witness for C4 on a concrete two-pass graph. -/
theorem execute_invokes_in_declaration_order_witness :
    (World.execute twoPassWorld).builder.invoked =
      twoPassWorld.builder.invoked ++
        twoPassWorld.builder.passes.map (fun p => p.callbackId) :=
  execute_invokes_in_declaration_order twoPassWorld rfl

/-! Claim C6. -/

/-- C6: the caller's output slot is written only at graph teardown: the
`QueueTextureExtraction` call itself leaves every slot (and every
readable-state record) untouched, and the slot/readable outcome of
`Execute()` is identical whether the builder runs in immediate/debug mode
or in deferred mode. -/
theorem extraction_resolved_only_at_execute (w : World) (t : FRDGTextureHandle)
    (s : Nat) (r : Bool) :
    (∀ b', w.builder.queueTextureExtraction t s r = Except.ok b' →
      (w.withBuilder b').slots = w.slots ∧ (w.withBuilder b').readable = w.readable) ∧
    ((World.execute { w with builder := { w.builder with bImmediateMode := true } }).slots =
      (World.execute { w with builder := { w.builder with bImmediateMode := false } }).slots ∧
     (World.execute { w with builder := { w.builder with bImmediateMode := true } }).readable =
      (World.execute { w with builder := { w.builder with bImmediateMode := false } }).readable) := by
  refine ⟨fun b' _ => ⟨rfl, rfl⟩, rfl, rfl⟩

/-- Witness for C6: a concrete queued extraction on a fresh builder
leaves the concrete slot store untouched. -/
theorem extraction_resolved_only_at_execute_witness :
    ((World.init false).withBuilder queuedBuilder).slots = (World.init false).slots :=
  ((extraction_resolved_only_at_execute (World.init false) texNoCaps 0 true).1
    queuedBuilder rfl).1

/-! Claim C2. -/

/-- C2 (amended): a pass added with the Compute flag and a nonzero
render-target count is not rejected.  The `FRenderGraphPass` constructor
raises a non-fatal `InvalidComputePass` diagnostic (`ensureMsgf`) and the
pass is still emplaced in the builder's pass list, render-target entries
included; the call returns normally, so later passes are unaffected. -/
theorem addPass_compute_with_render_targets_kept (b : FRDGBuilder)
    (hx : b.bHasExecuted = false) (n : String) (nrt fl cb : Nat)
    (hc : isComputeFlags fl = true) (hn : (nrt != 0) = true) :
    ∃ b', b.addPass n nrt fl cb = Except.ok b' ∧
      b'.passes = b.passes ++
        [{ name := n, parentScope := b.currentScope, numRenderTargets := nrt,
           passFlags := fl, callbackId := cb }] ∧
      b'.diags = b.diags ++ [RDGDiag.invalidComputePass n] := by
  simp only [FRDGBuilder.addPass, hx, Bool.false_eq_true, if_false, hc, hn,
    Bool.and_self, if_true, FRDGBuilder.addDiag]
  by_cases him : b.bImmediateMode <;> simp [him]

/-- Witness for C2 on a fresh builder and a concrete compute pass with
one render target. -/
theorem addPass_compute_with_render_targets_kept_witness :
    ∃ b', (FRDGBuilder.init false).addPass "P" 1 ComputePassFlag 0 = Except.ok b' ∧
      b'.passes = (FRDGBuilder.init false).passes ++
        [{ name := "P", parentScope := (FRDGBuilder.init false).currentScope,
           numRenderTargets := 1, passFlags := ComputePassFlag, callbackId := 0 }] ∧
      b'.diags = (FRDGBuilder.init false).diags ++ [RDGDiag.invalidComputePass "P"] :=
  addPass_compute_with_render_targets_kept (FRDGBuilder.init false) rfl "P" 1
    ComputePassFlag 0 rfl rfl

/-- Counterexample to C2 as stated: on a fresh builder, adding a
Compute-flagged pass whose parameter table has one render target entry
succeeds, and the builder afterwards holds a compute-flagged pass with a
nonzero render-target count — it was not rejected. -/
theorem addPass_compute_with_render_targets_cex :
    ((FRDGBuilder.init false).addPass "P" 1 ComputePassFlag 0).map
        (fun b => b.passes.map fun p => (p.isCompute, p.numRenderTargets)) =
      Except.ok [(true, 1)] := rfl

/-! Claim C3. -/

/-- C3 (amended): requesting a texture SRV on a texture lacking
`TexCreate_ShaderResource`, or a texture UAV on a texture lacking
`TexCreate_UAV`, raises a non-fatal `CapabilityMismatch` diagnostic
(`ensureMsgf`) and the view is still created and returned; buffer SRV and
UAV creation perform no capability check at all, so the behaviour is not
uniform across texture views and buffer views. -/
theorem createView_capability_behavior (b : FRDGBuilder) (hx : b.bHasExecuted = false)
    (ts : FRDGTextureSRVDesc) (tu : FRDGTextureUAVDesc)
    (bs : FRDGBufferSRVDesc) (bu : FRDGBufferUAVDesc)
    (hsr : (Nat.land ts.texture.desc.targetableFlags TexCreate_ShaderResource == 0) = true)
    (huav : (Nat.land tu.texture.desc.targetableFlags TexCreate_UAV == 0) = true) :
    ((b.createTextureSRV ts).2.diags = b.diags ++ [RDGDiag.capabilityMismatch ts.texture.name] ∧
     (b.createTextureSRV ts).2.resources = b.resources ++ [(b.createTextureSRV ts).1.id] ∧
     (b.createTextureSRV ts).1.resId = ts.texture.id) ∧
    ((b.createTextureUAV tu).2.diags = b.diags ++ [RDGDiag.capabilityMismatch tu.texture.name] ∧
     (b.createTextureUAV tu).2.resources = b.resources ++ [(b.createTextureUAV tu).1.id] ∧
     (b.createTextureUAV tu).1.resId = tu.texture.id) ∧
    ((b.createBufferSRV bs).2.diags = b.diags ∧
     (b.createBufferSRV bs).2.resources = b.resources ++ [(b.createBufferSRV bs).1.id] ∧
     (b.createBufferSRV bs).1.resId = bs.buffer.id) ∧
    ((b.createBufferUAV bu).2.diags = b.diags ∧
     (b.createBufferUAV bu).2.resources = b.resources ++ [(b.createBufferUAV bu).1.id] ∧
     (b.createBufferUAV bu).1.resId = bu.buffer.id) := by
  refine ⟨⟨?_, ?_, rfl⟩, ⟨?_, ?_, rfl⟩, ⟨?_, ?_, rfl⟩, ⟨?_, ?_, rfl⟩⟩ <;>
    simp [FRDGBuilder.createTextureSRV, FRDGBuilder.createTextureUAV,
      FRDGBuilder.createBufferSRV, FRDGBuilder.createBufferUAV,
      FRDGBuilder.addDiag, hx, hsr, huav]

/-- Witness for C3 on a fresh builder, with concrete capability-free
texture and buffer handles. -/
theorem createView_capability_behavior_witness :
    (((FRDGBuilder.init false).createTextureSRV { texture := texNoCaps }).2.diags =
        (FRDGBuilder.init false).diags ++ [RDGDiag.capabilityMismatch texNoCaps.name] ∧
     ((FRDGBuilder.init false).createTextureSRV { texture := texNoCaps }).2.resources =
        (FRDGBuilder.init false).resources ++
          [((FRDGBuilder.init false).createTextureSRV { texture := texNoCaps }).1.id] ∧
     ((FRDGBuilder.init false).createTextureSRV { texture := texNoCaps }).1.resId =
        texNoCaps.id) ∧
    (((FRDGBuilder.init false).createTextureUAV { texture := texNoCaps }).2.diags =
        (FRDGBuilder.init false).diags ++ [RDGDiag.capabilityMismatch texNoCaps.name] ∧
     ((FRDGBuilder.init false).createTextureUAV { texture := texNoCaps }).2.resources =
        (FRDGBuilder.init false).resources ++
          [((FRDGBuilder.init false).createTextureUAV { texture := texNoCaps }).1.id] ∧
     ((FRDGBuilder.init false).createTextureUAV { texture := texNoCaps }).1.resId =
        texNoCaps.id) ∧
    (((FRDGBuilder.init false).createBufferSRV { buffer := bufNoCaps }).2.diags =
        (FRDGBuilder.init false).diags ∧
     ((FRDGBuilder.init false).createBufferSRV { buffer := bufNoCaps }).2.resources =
        (FRDGBuilder.init false).resources ++
          [((FRDGBuilder.init false).createBufferSRV { buffer := bufNoCaps }).1.id] ∧
     ((FRDGBuilder.init false).createBufferSRV { buffer := bufNoCaps }).1.resId =
        bufNoCaps.id) ∧
    (((FRDGBuilder.init false).createBufferUAV { buffer := bufNoCaps }).2.diags =
        (FRDGBuilder.init false).diags ∧
     ((FRDGBuilder.init false).createBufferUAV { buffer := bufNoCaps }).2.resources =
        (FRDGBuilder.init false).resources ++
          [((FRDGBuilder.init false).createBufferUAV { buffer := bufNoCaps }).1.id] ∧
     ((FRDGBuilder.init false).createBufferUAV { buffer := bufNoCaps }).1.resId =
        bufNoCaps.id) :=
  createView_capability_behavior (FRDGBuilder.init false) rfl { texture := texNoCaps }
    { texture := texNoCaps } { buffer := bufNoCaps } { buffer := bufNoCaps } rfl rfl

/-- Counterexample to C3 as stated: a UAV view requested on a buffer
whose descriptor carries no capability flags at all is created with no
`CapabilityMismatch` failure and no diagnostic of any kind — the
capability rule does not hold for buffer views. -/
theorem createBufferUAV_unchecked_cex :
    bufNoCaps.desc.usage = 0 ∧
    ((FRDGBuilder.init false).createBufferUAV { buffer := bufNoCaps }).2.diags = [] ∧
    ((FRDGBuilder.init false).createBufferUAV { buffer := bufNoCaps }).2.resources = [0] ∧
    ((FRDGBuilder.init false).createBufferUAV { buffer := bufNoCaps }).1.resId =
      bufNoCaps.id :=
  ⟨rfl, rfl, rfl, rfl⟩

/-! Claim C1. -/

/-- C1 (amended): after `Execute()` has run, `AddPass` and
`QueueTextureExtraction` fail with the fatal `UseAfterExecute` assertion
(`checkf`), halting before mutating any state; `CreateTexture`,
`CreateBuffer`, `CreateSRV` and `CreateUAV` raise only a non-fatal
`UseAfterExecute` diagnostic (`ensureMsgf`) and still create and return
the new resource, leaving the previously declared passes, extraction
queue and pooled-texture references unchanged; and
`RegisterExternalTexture` performs no use-after-execute check at all,
succeeding with no diagnostic while registering the texture. -/
theorem declaration_after_execute_behavior (b : FRDGBuilder) (hx : b.bHasExecuted = true)
    (n bn rn : String) (d : FPooledRenderTargetDesc) (bd : FRDGBufferDesc)
    (p : IPooledRenderTarget) (t : FRDGTextureHandle)
    (nrt fl cb s : Nat) (rd : Bool)
    (ts : FRDGTextureSRVDesc) (tu : FRDGTextureUAVDesc)
    (bs : FRDGBufferSRVDesc) (bu : FRDGBufferUAVDesc) :
    (b.addPass n nrt fl cb = Except.error RDGFatal.useAfterExecute) ∧
    (b.queueTextureExtraction t s rd = Except.error RDGFatal.useAfterExecute) ∧
    ((b.createTexture d n).2.passes = b.passes ∧
     (b.createTexture d n).2.deferredQueries = b.deferredQueries ∧
     (b.createTexture d n).2.allocatedTextures = b.allocatedTextures ∧
     (b.createTexture d n).2.diags = b.diags ++ [RDGDiag.useAfterExecute n] ∧
     (b.createTexture d n).2.resources = b.resources ++ [(b.createTexture d n).1.id]) ∧
    ((b.createBuffer bd bn).2.passes = b.passes ∧
     (b.createBuffer bd bn).2.diags = b.diags ++ [RDGDiag.useAfterExecute bn] ∧
     (b.createBuffer bd bn).2.resources = b.resources ++ [(b.createBuffer bd bn).1.id]) ∧
    ((b.createTextureSRV ts).2.passes = b.passes ∧
     (RDGDiag.useAfterExecute ts.texture.name) ∈ (b.createTextureSRV ts).2.diags ∧
     (b.createTextureSRV ts).2.resources = b.resources ++ [(b.createTextureSRV ts).1.id]) ∧
    ((b.createTextureUAV tu).2.passes = b.passes ∧
     (RDGDiag.useAfterExecute tu.texture.name) ∈ (b.createTextureUAV tu).2.diags ∧
     (b.createTextureUAV tu).2.resources = b.resources ++ [(b.createTextureUAV tu).1.id]) ∧
    ((b.createBufferSRV bs).2.passes = b.passes ∧
     (b.createBufferSRV bs).2.diags = b.diags ++ [RDGDiag.useAfterExecute bs.buffer.name] ∧
     (b.createBufferSRV bs).2.resources = b.resources ++ [(b.createBufferSRV bs).1.id]) ∧
    ((b.createBufferUAV bu).2.passes = b.passes ∧
     (b.createBufferUAV bu).2.diags = b.diags ++ [RDGDiag.useAfterExecute bu.buffer.name] ∧
     (b.createBufferUAV bu).2.resources = b.resources ++ [(b.createBufferUAV bu).1.id]) ∧
    ((b.registerExternalTexture p rn).2.diags = b.diags ∧
     (b.registerExternalTexture p rn).2.passes = b.passes ∧
     (b.registerExternalTexture p rn).2.deferredQueries = b.deferredQueries ∧
     (b.registerExternalTexture p rn).2.allocatedTextures =
       b.allocatedTextures ++ [((b.registerExternalTexture p rn).1.id, p.id)] ∧
     (b.registerExternalTexture p rn).2.resources =
       b.resources ++ [(b.registerExternalTexture p rn).1.id]) := by
  refine ⟨?_, ?_, ⟨?_, ?_, ?_, ?_, ?_⟩, ⟨?_, ?_, ?_⟩, ⟨?_, ?_, ?_⟩, ⟨?_, ?_, ?_⟩,
    ⟨?_, ?_, ?_⟩, ⟨?_, ?_, ?_⟩, ⟨rfl, rfl, rfl, rfl, rfl⟩⟩
  all_goals
    try simp [FRDGBuilder.addPass, FRDGBuilder.queueTextureExtraction,
      FRDGBuilder.createTexture, FRDGBuilder.createBuffer,
      FRDGBuilder.createTextureSRV, FRDGBuilder.createTextureUAV,
      FRDGBuilder.createBufferSRV, FRDGBuilder.createBufferUAV,
      FRDGBuilder.addDiag, hx]
  all_goals try (split <;> simp)

/-- Witness for C1 on the concrete executed builder, with concrete
declaration arguments of every kind. -/
theorem declaration_after_execute_behavior_witness :
    (executedBuilder.addPass "P" 0 0 5 = Except.error RDGFatal.useAfterExecute) ∧
    (executedBuilder.queueTextureExtraction texAllCaps 0 true =
      Except.error RDGFatal.useAfterExecute) ∧
    ((executedBuilder.createTexture descAllCaps "P").2.passes = executedBuilder.passes ∧
     (executedBuilder.createTexture descAllCaps "P").2.deferredQueries =
       executedBuilder.deferredQueries ∧
     (executedBuilder.createTexture descAllCaps "P").2.allocatedTextures =
       executedBuilder.allocatedTextures ∧
     (executedBuilder.createTexture descAllCaps "P").2.diags =
       executedBuilder.diags ++ [RDGDiag.useAfterExecute "P"] ∧
     (executedBuilder.createTexture descAllCaps "P").2.resources =
       executedBuilder.resources ++
         [(executedBuilder.createTexture descAllCaps "P").1.id]) ∧
    ((executedBuilder.createBuffer bufDescNoCaps "Q").2.passes = executedBuilder.passes ∧
     (executedBuilder.createBuffer bufDescNoCaps "Q").2.diags =
       executedBuilder.diags ++ [RDGDiag.useAfterExecute "Q"] ∧
     (executedBuilder.createBuffer bufDescNoCaps "Q").2.resources =
       executedBuilder.resources ++
         [(executedBuilder.createBuffer bufDescNoCaps "Q").1.id]) ∧
    ((executedBuilder.createTextureSRV { texture := texAllCaps }).2.passes =
       executedBuilder.passes ∧
     (RDGDiag.useAfterExecute texAllCaps.name) ∈
       (executedBuilder.createTextureSRV { texture := texAllCaps }).2.diags ∧
     (executedBuilder.createTextureSRV { texture := texAllCaps }).2.resources =
       executedBuilder.resources ++
         [(executedBuilder.createTextureSRV { texture := texAllCaps }).1.id]) ∧
    ((executedBuilder.createTextureUAV { texture := texAllCaps }).2.passes =
       executedBuilder.passes ∧
     (RDGDiag.useAfterExecute texAllCaps.name) ∈
       (executedBuilder.createTextureUAV { texture := texAllCaps }).2.diags ∧
     (executedBuilder.createTextureUAV { texture := texAllCaps }).2.resources =
       executedBuilder.resources ++
         [(executedBuilder.createTextureUAV { texture := texAllCaps }).1.id]) ∧
    ((executedBuilder.createBufferSRV { buffer := bufNoCaps }).2.passes =
       executedBuilder.passes ∧
     (executedBuilder.createBufferSRV { buffer := bufNoCaps }).2.diags =
       executedBuilder.diags ++ [RDGDiag.useAfterExecute bufNoCaps.name] ∧
     (executedBuilder.createBufferSRV { buffer := bufNoCaps }).2.resources =
       executedBuilder.resources ++
         [(executedBuilder.createBufferSRV { buffer := bufNoCaps }).1.id]) ∧
    ((executedBuilder.createBufferUAV { buffer := bufNoCaps }).2.passes =
       executedBuilder.passes ∧
     (executedBuilder.createBufferUAV { buffer := bufNoCaps }).2.diags =
       executedBuilder.diags ++ [RDGDiag.useAfterExecute bufNoCaps.name] ∧
     (executedBuilder.createBufferUAV { buffer := bufNoCaps }).2.resources =
       executedBuilder.resources ++
         [(executedBuilder.createBufferUAV { buffer := bufNoCaps }).1.id]) ∧
    ((executedBuilder.registerExternalTexture pooledA "E").2.diags =
       executedBuilder.diags ∧
     (executedBuilder.registerExternalTexture pooledA "E").2.passes =
       executedBuilder.passes ∧
     (executedBuilder.registerExternalTexture pooledA "E").2.deferredQueries =
       executedBuilder.deferredQueries ∧
     (executedBuilder.registerExternalTexture pooledA "E").2.allocatedTextures =
       executedBuilder.allocatedTextures ++
         [((executedBuilder.registerExternalTexture pooledA "E").1.id, pooledA.id)] ∧
     (executedBuilder.registerExternalTexture pooledA "E").2.resources =
       executedBuilder.resources ++
         [(executedBuilder.registerExternalTexture pooledA "E").1.id]) :=
  declaration_after_execute_behavior executedBuilder rfl "P" "Q" "E" descAllCaps
    bufDescNoCaps pooledA texAllCaps 0 0 5 0 true { texture := texAllCaps }
    { texture := texAllCaps } { buffer := bufNoCaps } { buffer := bufNoCaps }

/-- Counterexample to C1 as stated: on a builder that has already
executed, `RegisterExternalTexture` does not fail with `UseAfterExecute`
— it emits no diagnostic, returns a fresh handle, and mutates the
builder by registering the texture (the pooled-reference map and the
resource list both grow). -/
theorem register_after_execute_cex :
    executedBuilder.bHasExecuted = true ∧
    (executedBuilder.registerExternalTexture pooledA "E").2.diags =
      executedBuilder.diags ∧
    (executedBuilder.registerExternalTexture pooledA "E").2.allocatedTextures =
      executedBuilder.allocatedTextures ++ [(executedBuilder.nextId, pooledA.id)] ∧
    (executedBuilder.registerExternalTexture pooledA "E").2.resources ≠
      executedBuilder.resources := by
  refine ⟨rfl, rfl, rfl, ?_⟩
  decide

/-! Claim C7. -/

theorem lookupMode_set_self (st : List (Nat × EAccessMode)) (k : Nat) (m : EAccessMode) :
    lookupMode (setAccessMode st k m) k = some m := by
  induction st with
  | nil => simp [setAccessMode, lookupMode]
  | cons hd tl ih =>
      by_cases hk : hd.1 = k
      · simp [setAccessMode, hk, lookupMode]
      · simp [setAccessMode, hk, lookupMode, ih]

theorem lookupMode_set_ne (st : List (Nat × EAccessMode)) {k k' : Nat}
    (m : EAccessMode) (h : k ≠ k') :
    lookupMode (setAccessMode st k m) k' = lookupMode st k' := by
  induction st with
  | nil => simp [setAccessMode, lookupMode, h]
  | cons hd tl ih =>
      by_cases hk : hd.1 = k
      · have : hd.1 ≠ k' := fun hc => h (hk ▸ hc)
        simp [setAccessMode, hk, lookupMode, h, this]
      · by_cases hk' : hd.1 = k'
        · simp [setAccessMode, hk, lookupMode, hk', Ne.symm h]
        · simp [setAccessMode, hk, lookupMode, hk', ih]

/-- The per-resource projection of the walk: the transitions the linear
scan emits for one resource are exactly the transitions determined by
that resource's own access history, starting from its recorded mode in
the walk state. -/
theorem emittedForEntries_eq_pure (entries : List FAccessEntry) :
    ∀ (st : List (Nat × EAccessMode)) (r : Nat),
      emittedForEntries entries st r =
        pureTransitionSeq (lookupMode st r) (entriesHistory entries r) := by
  induction entries with
  | nil => intro st r; rfl
  | cons e rest ih =>
      intro st r
      by_cases hr : e.res = r
      · subst hr
        simp only [emittedForEntries, walkTransitions, List.filterMap_append,
          entriesHistory, List.filterMap_cons, if_pos rfl, pureTransitionSeq]
        have htl := ih (setAccessMode st e.res e.mode) e.res
        simp only [emittedForEntries, entriesHistory] at htl
        rw [htl, lookupMode_set_self]
        cases transitionLookup (lookupMode st e.res) e.mode e.cat <;> simp
      · simp only [emittedForEntries, walkTransitions, List.filterMap_append,
          entriesHistory, List.filterMap_cons, if_neg hr]
        have htl := ih (setAccessMode st e.res e.mode) r
        simp only [emittedForEntries, entriesHistory] at htl
        rw [htl, lookupMode_set_ne st e.mode hr]
        cases transitionLookup (lookupMode st e.res) e.mode e.cat <;> simp [hr]

/-- C7: the transition computation is two-run deterministic per resource
— for any two graphs and any two resources with identical access
histories (same categories and access modes in the same order), the walk
emits identical transition sequences for them, independent of whatever
other resources or passes each graph contains. -/
theorem transition_sequence_deterministic (g1 g2 : GraphAccesses) (r1 r2 : Nat)
    (h : accessHistory g1 r1 = accessHistory g2 r2) :
    emittedFor g1 r1 = emittedFor g2 r2 := by
  unfold accessHistory at h
  unfold emittedFor
  rw [emittedForEntries_eq_pure, emittedForEntries_eq_pure]
  simp only [lookupMode]
  rw [h]

/-- Witness for C7: resource 1 of `graphOne` and resource 5 of `graphTwo`
share the access history write-then-read and receive identical transition
sequences. -/
theorem transition_sequence_deterministic_witness :
    accessHistory graphOne 1 = accessHistory graphTwo 5 ∧
    emittedFor graphOne 1 = emittedFor graphTwo 5 :=
  ⟨rfl, transition_sequence_deterministic graphOne graphTwo 1 5 rfl⟩

/-! Field-preservation lemmas for the builder calls, used for the scope
and lifetime invariants (C8, C9). -/

theorem createTexture_core (b : FRDGBuilder) (d : FPooledRenderTargetDesc) (n : String) :
    (b.createTexture d n).2.currentScope = b.currentScope ∧
    (b.createTexture d n).2.bHasExecuted = b.bHasExecuted ∧
    (b.createTexture d n).2.allocatedTextures = b.allocatedTextures ∧
    (b.createTexture d n).2.textureBindings = b.textureBindings ∧
    (b.createTexture d n).2.externalTextures = b.externalTextures := by
  unfold FRDGBuilder.createTexture
  by_cases hx : b.bHasExecuted <;> simp [hx, FRDGBuilder.addDiag]

theorem createBuffer_core (b : FRDGBuilder) (d : FRDGBufferDesc) (n : String) :
    (b.createBuffer d n).2.currentScope = b.currentScope ∧
    (b.createBuffer d n).2.bHasExecuted = b.bHasExecuted ∧
    (b.createBuffer d n).2.allocatedTextures = b.allocatedTextures ∧
    (b.createBuffer d n).2.textureBindings = b.textureBindings ∧
    (b.createBuffer d n).2.externalTextures = b.externalTextures := by
  unfold FRDGBuilder.createBuffer
  by_cases hx : b.bHasExecuted <;> simp [hx, FRDGBuilder.addDiag]

theorem createTextureSRV_core (b : FRDGBuilder) (d : FRDGTextureSRVDesc) :
    (b.createTextureSRV d).2.currentScope = b.currentScope ∧
    (b.createTextureSRV d).2.bHasExecuted = b.bHasExecuted ∧
    (b.createTextureSRV d).2.allocatedTextures = b.allocatedTextures ∧
    (b.createTextureSRV d).2.textureBindings = b.textureBindings ∧
    (b.createTextureSRV d).2.externalTextures = b.externalTextures := by
  unfold FRDGBuilder.createTextureSRV
  by_cases hx : b.bHasExecuted <;>
    by_cases hc : (Nat.land d.texture.desc.targetableFlags TexCreate_ShaderResource == 0) = true <;>
      simp [hx, hc, FRDGBuilder.addDiag]

theorem createBufferSRV_core (b : FRDGBuilder) (d : FRDGBufferSRVDesc) :
    (b.createBufferSRV d).2.currentScope = b.currentScope ∧
    (b.createBufferSRV d).2.bHasExecuted = b.bHasExecuted ∧
    (b.createBufferSRV d).2.allocatedTextures = b.allocatedTextures ∧
    (b.createBufferSRV d).2.textureBindings = b.textureBindings ∧
    (b.createBufferSRV d).2.externalTextures = b.externalTextures := by
  unfold FRDGBuilder.createBufferSRV
  by_cases hx : b.bHasExecuted <;> simp [hx, FRDGBuilder.addDiag]

theorem createTextureUAV_core (b : FRDGBuilder) (d : FRDGTextureUAVDesc) :
    (b.createTextureUAV d).2.currentScope = b.currentScope ∧
    (b.createTextureUAV d).2.bHasExecuted = b.bHasExecuted ∧
    (b.createTextureUAV d).2.allocatedTextures = b.allocatedTextures ∧
    (b.createTextureUAV d).2.textureBindings = b.textureBindings ∧
    (b.createTextureUAV d).2.externalTextures = b.externalTextures := by
  unfold FRDGBuilder.createTextureUAV
  by_cases hx : b.bHasExecuted <;>
    by_cases hc : (Nat.land d.texture.desc.targetableFlags TexCreate_UAV == 0) = true <;>
      simp [hx, hc, FRDGBuilder.addDiag]

theorem createBufferUAV_core (b : FRDGBuilder) (d : FRDGBufferUAVDesc) :
    (b.createBufferUAV d).2.currentScope = b.currentScope ∧
    (b.createBufferUAV d).2.bHasExecuted = b.bHasExecuted ∧
    (b.createBufferUAV d).2.allocatedTextures = b.allocatedTextures ∧
    (b.createBufferUAV d).2.textureBindings = b.textureBindings ∧
    (b.createBufferUAV d).2.externalTextures = b.externalTextures := by
  unfold FRDGBuilder.createBufferUAV
  by_cases hx : b.bHasExecuted <;> simp [hx, FRDGBuilder.addDiag]

theorem registerExternalTexture_core (b : FRDGBuilder) (p : IPooledRenderTarget)
    (n : String) :
    (b.registerExternalTexture p n).2.currentScope = b.currentScope ∧
    (b.registerExternalTexture p n).2.bHasExecuted = b.bHasExecuted ∧
    (b.registerExternalTexture p n).2.allocatedTextures =
      b.allocatedTextures ++ [(b.nextId, p.id)] ∧
    (b.registerExternalTexture p n).2.textureBindings =
      b.textureBindings ++ [(b.nextId, p.id)] ∧
    (b.registerExternalTexture p n).2.externalTextures =
      b.externalTextures ++ [b.nextId] :=
  ⟨rfl, rfl, rfl, rfl, rfl⟩

theorem addPass_ok_core {b : FRDGBuilder} {n : String} {nrt fl cb : Nat}
    {b' : FRDGBuilder} (h : b.addPass n nrt fl cb = Except.ok b') :
    b'.currentScope = b.currentScope ∧
    b'.bHasExecuted = b.bHasExecuted ∧
    b'.allocatedTextures = b.allocatedTextures ∧
    b'.textureBindings = b.textureBindings ∧
    b'.externalTextures = b.externalTextures := by
  unfold FRDGBuilder.addPass at h
  by_cases hx : b.bHasExecuted
  · simp [hx] at h
  · simp only [hx, Bool.false_eq_true, if_false] at h
    split at h <;> split at h <;>
      (simp only [Except.ok.injEq] at h; subst h; simp [FRDGBuilder.addDiag, hx])

theorem queueTextureExtraction_ok_core {b : FRDGBuilder} {t : FRDGTextureHandle}
    {s : Nat} {r : Bool} {b' : FRDGBuilder}
    (h : b.queueTextureExtraction t s r = Except.ok b') :
    b'.currentScope = b.currentScope ∧
    b'.bHasExecuted = b.bHasExecuted ∧
    b'.allocatedTextures = b.allocatedTextures ∧
    b'.textureBindings = b.textureBindings ∧
    b'.externalTextures = b.externalTextures := by
  unfold FRDGBuilder.queueTextureExtraction at h
  by_cases hx : b.bHasExecuted
  · simp [hx] at h
  · simp only [hx, Bool.false_eq_true, if_false, Except.ok.injEq] at h
    subst h
    simp [hx]

theorem execute_builder_core (w : World) :
    (World.execute w).builder.currentScope = w.builder.currentScope ∧
    (World.execute w).builder.allocatedTextures = w.builder.allocatedTextures ∧
    (World.execute w).builder.textureBindings = w.builder.textureBindings ∧
    (World.execute w).builder.externalTextures = w.builder.externalTextures :=
  ⟨rfl, rfl, rfl, rfl⟩

/-- Every successful builder call leaves `CurrentScope` untouched: only
the scope push/pop pair moves it. -/
theorem applyOp_ok_currentScope {o : RDGOp} {w w' : World}
    (h : applyOp o w = Except.ok w') :
    w'.builder.currentScope = w.builder.currentScope := by
  cases o with
  | createTexture d n =>
      simp only [applyOp, Except.ok.injEq] at h; subst h
      exact (createTexture_core w.builder d n).1
  | createBuffer d n =>
      simp only [applyOp, Except.ok.injEq] at h; subst h
      exact (createBuffer_core w.builder d n).1
  | registerExternalTexture p n =>
      simp only [applyOp, Except.ok.injEq] at h; subst h
      exact (registerExternalTexture_core w.builder p n).1
  | createTextureSRV d =>
      simp only [applyOp, Except.ok.injEq] at h; subst h
      exact (createTextureSRV_core w.builder d).1
  | createBufferSRV d =>
      simp only [applyOp, Except.ok.injEq] at h; subst h
      exact (createBufferSRV_core w.builder d).1
  | createTextureUAV d =>
      simp only [applyOp, Except.ok.injEq] at h; subst h
      exact (createTextureUAV_core w.builder d).1
  | createBufferUAV d =>
      simp only [applyOp, Except.ok.injEq] at h; subst h
      exact (createBufferUAV_core w.builder d).1
  | addPass n nrt fl cb =>
      simp only [applyOp] at h
      cases ha : w.builder.addPass n nrt fl cb with
      | error e => rw [ha] at h; cases h
      | ok b1 =>
          rw [ha] at h
          simp only [Except.ok.injEq] at h; subst h
          exact (addPass_ok_core ha).1
  | queueTextureExtraction t s r =>
      simp only [applyOp] at h
      cases ha : w.builder.queueTextureExtraction t s r with
      | error e => rw [ha] at h; cases h
      | ok b1 =>
          rw [ha] at h
          simp only [Except.ok.injEq] at h; subst h
          exact (queueTextureExtraction_ok_core ha).1
  | releaseTextureIfPossible t =>
      simp only [applyOp, Except.ok.injEq] at h; subst h
      unfold FRDGBuilder.releaseTextureIfPossible
      split <;> rfl
  | executeGraph =>
      simp only [applyOp, Except.ok.injEq] at h; subst h
      exact (execute_builder_core w).1

/-! Claim C8. -/

/-- Any scope-structured program that completes leaves `CurrentScope`
exactly where it started: each block's push is undone by its matching
RAII pop, and the plain builder calls never move the scope. -/
theorem runScopeProg_ok_currentScope (p : ScopeProg) :
    ∀ w w', runScopeProg p w = Except.ok w' →
      w'.builder.currentScope = w.builder.currentScope := by
  induction p with
  | done =>
      intro w w' h
      simp only [runScopeProg, Except.ok.injEq] at h
      subst h; rfl
  | op o rest ih =>
      intro w w' h
      simp only [runScopeProg] at h
      cases ha : applyOp o w with
      | error e => rw [ha] at h; cases h
      | ok w1 =>
          rw [ha] at h
          rw [ih w1 w' h, applyOp_ok_currentScope ha]
  | scope n inner rest ih1 ih2 =>
      intro w w' h
      simp only [runScopeProg] at h
      split at h
      · cases h
      · rename_i b1 hp
        split at h
        · cases h
        · rename_i w2 hi
          split at h
          · cases h
          · rename_i b3 hpo
            have hb1 : b1.currentScope = n :: w.builder.currentScope := by
              unfold FRDGBuilder.pushScope at hp
              by_cases hx : w.builder.bHasExecuted
              · simp [hx] at hp
              · simp only [hx, Bool.false_eq_true, if_false, Except.ok.injEq] at hp
                subst hp; rfl
            have hw2 : w2.builder.currentScope = n :: w.builder.currentScope := by
              rw [ih1 (w.withBuilder b1) w2 hi]; exact hb1
            have hb3 : b3.currentScope = w.builder.currentScope := by
              have hred : w2.builder.popScope =
                  Except.ok { w2.builder with currentScope := w.builder.currentScope } := by
                unfold FRDGBuilder.popScope
                rw [hw2]
              rw [hred] at hpo
              simp only [Except.ok.injEq] at hpo
              subst hpo; rfl
            rw [ih2 (w2.withBuilder b3) w' h]
            exact hb3

/-- C8: pushing an event scope makes the current scope a new scope whose
parent is the previous current scope, and the matching RAII pop restores
the current scope to exactly its pre-push value; consequently every
balanced scope-structured program that runs to completion leaves the
builder's current scope unchanged. -/
theorem event_scope_push_pop_balanced :
    (∀ (b : FRDGBuilder) (n : String) (b1 : FRDGBuilder),
      b.pushScope n = Except.ok b1 →
        b1.currentScope = n :: b.currentScope ∧
        ∃ b2, b1.popScope = Except.ok b2 ∧ b2.currentScope = b.currentScope) ∧
    (∀ (p : ScopeProg) (w w' : World), runScopeProg p w = Except.ok w' →
      w'.builder.currentScope = w.builder.currentScope) := by
  constructor
  · intro b n b1 hp
    unfold FRDGBuilder.pushScope at hp
    by_cases hx : b.bHasExecuted
    · simp [hx] at hp
    · simp only [hx, Bool.false_eq_true, if_false, Except.ok.injEq] at hp
      subst hp
      exact ⟨rfl, _, rfl, rfl⟩
  · exact fun p w w' h => runScopeProg_ok_currentScope p w w' h

/-- Witness for C8: a concrete nested program — an outer scope containing
a pass, an inner scope with a texture creation, then another pass —
returns the current scope to its initial value, and a concrete push is
undone by its pop. -/
theorem event_scope_push_pop_balanced_witness :
    (pushedOuter.currentScope = "Outer" :: (FRDGBuilder.init false).currentScope ∧
      ∃ b2, pushedOuter.popScope = Except.ok b2 ∧
        b2.currentScope = (FRDGBuilder.init false).currentScope) ∧
    (∀ w', runScopeProg
        (ScopeProg.scope "Outer"
          (ScopeProg.op (RDGOp.addPass "P1" 1 0 1)
            (ScopeProg.scope "Inner"
              (ScopeProg.op (RDGOp.createTexture descAllCaps "T") ScopeProg.done)
              (ScopeProg.op (RDGOp.addPass "P2" 0 ComputePassFlag 2) ScopeProg.done)))
          ScopeProg.done)
        (World.init false) = Except.ok w' →
      w'.builder.currentScope = (World.init false).builder.currentScope) := by
  constructor
  · exact event_scope_push_pop_balanced.1 (FRDGBuilder.init false) "Outer" pushedOuter rfl
  · intro w' h
    exact event_scope_push_pop_balanced.2 _ (World.init false) w' h

/-! Claim C5. -/

/-- C5: registering an external physical pooled texture, queueing its
extraction with the transition flag set, and executing the graph leaves
in the caller's output slot the identity of the very pooled texture that
was registered — not a copy or a pool substitute — and that pooled
texture has been transitioned to the readable state. -/
theorem external_extraction_round_trip (w : World) (p : IPooledRenderTarget)
    (n : String) (slot : Nat)
    (hx : w.builder.bHasExecuted = false)
    (hfresh : lookupA w.builder.textureBindings w.builder.nextId = none) :
    ∃ b2,
      (w.withBuilder (w.builder.registerExternalTexture p n).2).builder.queueTextureExtraction
          (w.builder.registerExternalTexture p n).1 slot true = Except.ok b2 ∧
      lookupA (World.execute
          ((w.withBuilder (w.builder.registerExternalTexture p n).2).withBuilder b2)).slots
          slot = some p.id ∧
      p.id ∈ (World.execute
          ((w.withBuilder (w.builder.registerExternalTexture p n).2).withBuilder b2)).readable := by
  have hb : lookupA (w.builder.textureBindings ++ [(w.builder.nextId, p.id)])
      w.builder.nextId = some p.id := by
    rw [lookupA_append_of_none _ hfresh]
    simp [lookupA]
  have hq : (w.withBuilder (w.builder.registerExternalTexture p n).2).builder.queueTextureExtraction
      (w.builder.registerExternalTexture p n).1 slot true = Except.ok
      { (w.builder.registerExternalTexture p n).2 with
        deferredQueries := (w.builder.registerExternalTexture p n).2.deferredQueries ++
          [{ texture := (w.builder.registerExternalTexture p n).1.id, outSlot := slot,
             bTransitionToRead := true }] } := by
    unfold FRDGBuilder.queueTextureExtraction
    have hx2 : (w.withBuilder (w.builder.registerExternalTexture p n).2).builder.bHasExecuted =
        false := hx
    rw [hx2]
    simp [World.withBuilder, FRDGBuilder.registerExternalTexture, hx]
  refine ⟨_, hq, ?_, ?_⟩
  · show lookupA (World.execute _).slots slot = some p.id
    simp only [World.execute, World.withBuilder, FRDGBuilder.registerExternalTexture,
      List.foldl_append, List.foldl_cons, List.foldl_nil, processQuery, hb]
    exact lookupA_setSlot_self _ slot p.id
  · show p.id ∈ (World.execute _).readable
    simp only [World.execute, World.withBuilder, FRDGBuilder.registerExternalTexture,
      List.foldl_append, List.foldl_cons, List.foldl_nil, processQuery, hb]
    simp

/-- Witness for C5: register `pooledA` on a fresh builder, queue its
extraction into slot 0, execute; slot 0 holds identity 100 and it is
readable. -/
theorem external_extraction_round_trip_witness :
    ∃ b2,
      ((World.init false).withBuilder
          ((World.init false).builder.registerExternalTexture pooledA "E").2).builder.queueTextureExtraction
          ((World.init false).builder.registerExternalTexture pooledA "E").1 0 true =
        Except.ok b2 ∧
      lookupA (World.execute
          (((World.init false).withBuilder
            ((World.init false).builder.registerExternalTexture pooledA "E").2).withBuilder b2)).slots
          0 = some pooledA.id ∧
      pooledA.id ∈ (World.execute
          (((World.init false).withBuilder
            ((World.init false).builder.registerExternalTexture pooledA "E").2).withBuilder b2)).readable :=
  external_extraction_round_trip (World.init false) pooledA "E" 0 rfl rfl

/-! Claim C9. -/

/-- Any single successful builder call preserves an externally registered
texture's binding and the builder's pooled reference to it. -/
theorem applyOp_ok_external_retained {o : RDGOp} {w w' : World}
    (h : applyOp o w = Except.ok w') {tid pid : Nat}
    (hext : tid ∈ w.builder.externalTextures)
    (hbind : lookupA w.builder.textureBindings tid = some pid)
    (halloc : (tid, pid) ∈ w.builder.allocatedTextures) :
    tid ∈ w'.builder.externalTextures ∧
    lookupA w'.builder.textureBindings tid = some pid ∧
    (tid, pid) ∈ w'.builder.allocatedTextures := by
  cases o with
  | createTexture d n =>
      simp only [applyOp, Except.ok.injEq] at h; subst h
      obtain ⟨-, -, h3, h4, h5⟩ := createTexture_core w.builder d n
      exact ⟨h5 ▸ hext, h4 ▸ hbind, h3 ▸ halloc⟩
  | createBuffer d n =>
      simp only [applyOp, Except.ok.injEq] at h; subst h
      obtain ⟨-, -, h3, h4, h5⟩ := createBuffer_core w.builder d n
      exact ⟨h5 ▸ hext, h4 ▸ hbind, h3 ▸ halloc⟩
  | registerExternalTexture p n =>
      simp only [applyOp, Except.ok.injEq] at h; subst h
      obtain ⟨-, -, h3, h4, h5⟩ := registerExternalTexture_core w.builder p n
      refine ⟨?_, ?_, ?_⟩
      · show tid ∈ (w.builder.registerExternalTexture p n).2.externalTextures
        rw [h5]; exact List.mem_append_left _ hext
      · show lookupA (w.builder.registerExternalTexture p n).2.textureBindings tid = some pid
        rw [h4]; exact lookupA_append_some _ hbind
      · show (tid, pid) ∈ (w.builder.registerExternalTexture p n).2.allocatedTextures
        rw [h3]; exact List.mem_append_left _ halloc
  | createTextureSRV d =>
      simp only [applyOp, Except.ok.injEq] at h; subst h
      obtain ⟨-, -, h3, h4, h5⟩ := createTextureSRV_core w.builder d
      exact ⟨h5 ▸ hext, h4 ▸ hbind, h3 ▸ halloc⟩
  | createBufferSRV d =>
      simp only [applyOp, Except.ok.injEq] at h; subst h
      obtain ⟨-, -, h3, h4, h5⟩ := createBufferSRV_core w.builder d
      exact ⟨h5 ▸ hext, h4 ▸ hbind, h3 ▸ halloc⟩
  | createTextureUAV d =>
      simp only [applyOp, Except.ok.injEq] at h; subst h
      obtain ⟨-, -, h3, h4, h5⟩ := createTextureUAV_core w.builder d
      exact ⟨h5 ▸ hext, h4 ▸ hbind, h3 ▸ halloc⟩
  | createBufferUAV d =>
      simp only [applyOp, Except.ok.injEq] at h; subst h
      obtain ⟨-, -, h3, h4, h5⟩ := createBufferUAV_core w.builder d
      exact ⟨h5 ▸ hext, h4 ▸ hbind, h3 ▸ halloc⟩
  | addPass n nrt fl cb =>
      simp only [applyOp] at h
      cases ha : w.builder.addPass n nrt fl cb with
      | error e => rw [ha] at h; cases h
      | ok b1 =>
          rw [ha] at h
          simp only [Except.ok.injEq] at h; subst h
          obtain ⟨-, -, h3, h4, h5⟩ := addPass_ok_core ha
          exact ⟨h5 ▸ hext, h4 ▸ hbind, h3 ▸ halloc⟩
  | queueTextureExtraction t s r =>
      simp only [applyOp] at h
      cases ha : w.builder.queueTextureExtraction t s r with
      | error e => rw [ha] at h; cases h
      | ok b1 =>
          rw [ha] at h
          simp only [Except.ok.injEq] at h; subst h
          obtain ⟨-, -, h3, h4, h5⟩ := queueTextureExtraction_ok_core ha
          exact ⟨h5 ▸ hext, h4 ▸ hbind, h3 ▸ halloc⟩
  | releaseTextureIfPossible t =>
      simp only [applyOp, Except.ok.injEq] at h; subst h
      show tid ∈ (w.builder.releaseTextureIfPossible t).externalTextures ∧
        lookupA (w.builder.releaseTextureIfPossible t).textureBindings tid = some pid ∧
        (tid, pid) ∈ (w.builder.releaseTextureIfPossible t).allocatedTextures
      unfold FRDGBuilder.releaseTextureIfPossible
      by_cases hm : t.id ∈ w.builder.externalTextures
      · simp only [if_pos hm]
        exact ⟨hext, hbind, halloc⟩
      · have hne : t.id ≠ tid := fun hc => hm (hc ▸ hext)
        simp only [if_neg hm]
        refine ⟨hext, ?_, ?_⟩
        · rw [lookupA_eraseKey_ne hne]; exact hbind
        · exact mem_eraseKey halloc (fun hc => hne hc.symm)
  | executeGraph =>
      simp only [applyOp, Except.ok.injEq] at h; subst h
      obtain ⟨-, h2, h3, h4⟩ := execute_builder_core w
      exact ⟨h4 ▸ hext, h3 ▸ hbind, h2 ▸ halloc⟩

/-- Any successful run of builder calls preserves an externally
registered texture's binding and pooled reference. -/
theorem runOps_ok_external_retained {ops : List RDGOp} :
    ∀ {w w' : World}, runOps ops w = Except.ok w' → ∀ {tid pid : Nat},
      tid ∈ w.builder.externalTextures →
      lookupA w.builder.textureBindings tid = some pid →
      (tid, pid) ∈ w.builder.allocatedTextures →
      tid ∈ w'.builder.externalTextures ∧
      lookupA w'.builder.textureBindings tid = some pid ∧
      (tid, pid) ∈ w'.builder.allocatedTextures := by
  induction ops with
  | nil =>
      intro w w' h tid pid hext hbind halloc
      simp only [runOps, Except.ok.injEq] at h
      subst h
      exact ⟨hext, hbind, halloc⟩
  | cons o rest ih =>
      intro w w' h tid pid hext hbind halloc
      simp only [runOps] at h
      cases ha : applyOp o w with
      | error e => rw [ha] at h; cases h
      | ok w1 =>
          rw [ha] at h
          obtain ⟨h1, h2, h3⟩ := applyOp_ok_external_retained ha hext hbind halloc
          exact ih h h1 h2 h3

/-- C9: `RegisterExternalTexture` immediately binds the returned handle
to the caller's physical pooled texture, and the builder's
`AllocatedTextures` map retains the shared reference to that physical
texture across every subsequent builder call — release is a no-op for
externals — so the reference is held for the builder's whole remaining
lifetime. -/
theorem registerExternalTexture_binds_and_retains (w : World)
    (p : IPooledRenderTarget) (n : String)
    (hfresh : lookupA w.builder.textureBindings w.builder.nextId = none)
    (ops : List RDGOp) (w' : World)
    (hrun : runOps ops
      (w.withBuilder (w.builder.registerExternalTexture p n).2) = Except.ok w') :
    lookupA (w.builder.registerExternalTexture p n).2.textureBindings
        (w.builder.registerExternalTexture p n).1.id = some p.id ∧
    ((w.builder.registerExternalTexture p n).1.id, p.id) ∈
      (w.builder.registerExternalTexture p n).2.allocatedTextures ∧
    lookupA w'.builder.textureBindings
        (w.builder.registerExternalTexture p n).1.id = some p.id ∧
    ((w.builder.registerExternalTexture p n).1.id, p.id) ∈
      w'.builder.allocatedTextures := by
  have hbind : lookupA (w.builder.registerExternalTexture p n).2.textureBindings
      (w.builder.registerExternalTexture p n).1.id = some p.id := by
    show lookupA (w.builder.textureBindings ++ [(w.builder.nextId, p.id)])
        w.builder.nextId = some p.id
    rw [lookupA_append_of_none _ hfresh]
    simp [lookupA]
  have hext : (w.builder.registerExternalTexture p n).1.id ∈
      (w.builder.registerExternalTexture p n).2.externalTextures := by
    show w.builder.nextId ∈ w.builder.externalTextures ++ [w.builder.nextId]
    exact List.mem_append_right _ (List.mem_singleton.mpr rfl)
  have halloc : ((w.builder.registerExternalTexture p n).1.id, p.id) ∈
      (w.builder.registerExternalTexture p n).2.allocatedTextures := by
    show (w.builder.nextId, p.id) ∈
      w.builder.allocatedTextures ++ [(w.builder.nextId, p.id)]
    exact List.mem_append_right _ (List.mem_singleton.mpr rfl)
  obtain ⟨-, h2, h3⟩ := runOps_ok_external_retained hrun hext hbind halloc
  exact ⟨hbind, halloc, h2, h3⟩

/-- Witness for C9: register `pooledA` on a fresh builder, then execute
the graph; the binding and the retained pooled reference survive. -/
theorem registerExternalTexture_binds_and_retains_witness :
    lookupA ((World.init false).builder.registerExternalTexture pooledA "E").2.textureBindings
        ((World.init false).builder.registerExternalTexture pooledA "E").1.id =
      some pooledA.id ∧
    (((World.init false).builder.registerExternalTexture pooledA "E").1.id, pooledA.id) ∈
      ((World.init false).builder.registerExternalTexture pooledA "E").2.allocatedTextures ∧
    lookupA c9Final.builder.textureBindings
        ((World.init false).builder.registerExternalTexture pooledA "E").1.id =
      some pooledA.id ∧
    (((World.init false).builder.registerExternalTexture pooledA "E").1.id, pooledA.id) ∈
      c9Final.builder.allocatedTextures :=
  registerExternalTexture_binds_and_retains (World.init false) pooledA "E" rfl
    [RDGOp.executeGraph] c9Final rfl

end RDG
